import Mathlib

/-!
Verification development for the Redis caching / rate-limiting service
(`src/Redis&Caching.js`).  The JavaScript handlers are shallowly embedded
as pure Lean functions over an explicit key-value-store state; `await`ed
store operations that can throw are modelled with `Except`, and each
handler also reports the store-write events and whether the database
(`Product.findById` / `getFakeNewsFromDb`) was invoked, so that cache-hit
and error-path properties can be stated directly.
-/

set_option maxHeartbeats 1000000

namespace RedisCaching

-- JavaScript/JSON values as they occur in the handlers.  Arrays and
-- object field lists are separate mutual inductives so that all recursive
-- definitions over values are plain structural recursions.
mutual
inductive JSValue where
  | vNull : JSValue
  | vBool (b : Bool) : JSValue
  | vNum (n : Int) : JSValue
  | vStr (s : String) : JSValue
  | vArr (items : JSArr) : JSValue
  | vObj (fields : JSFields) : JSValue

inductive JSArr where
  | nil : JSArr
  | cons (v : JSValue) (rest : JSArr) : JSArr

inductive JSFields where
  | nil : JSFields
  | cons (k : String) (v : JSValue) (rest : JSFields) : JSFields
end

/-- Field lookup in a JSON object (used to ask whether a response body
carries a given field, e.g. `retryAfterSeconds`). -/
def JSFields.lookup : JSFields → String → Option JSValue
  | .nil, _ => none
  | .cons k v rest, k' => if k = k' then some v else rest.lookup k'

/-- `obj.field` access on a `JSValue`: `none` when not an object or the
field is absent. -/
def JSValue.lookup : JSValue → String → Option JSValue
  | .vObj fields, k => fields.lookup k
  | _, _ => none

def lbrace : Char := Char.ofNat 123
def rbrace : Char := Char.ofNat 125

-- JSON.stringify (string escaping is not modelled: the strings the
-- handlers store contain no quotes or control characters).
mutual
def JSValue.encode : JSValue → String
  | .vNull => "null"
  | .vBool true => "true"
  | .vBool false => "false"
  | .vNum n => toString n
  | .vStr s => "\"" ++ s ++ "\""
  | .vArr items => "[" ++ items.encode ++ "]"
  | .vObj fields => String.singleton lbrace ++ fields.encode ++ String.singleton rbrace

def JSArr.encode : JSArr → String
  | .nil => ""
  | .cons v .nil => v.encode
  | .cons v (.cons w rest) => v.encode ++ "," ++ (JSArr.cons w rest).encode

def JSFields.encode : JSFields → String
  | .nil => ""
  | .cons k v .nil => "\"" ++ k ++ "\":" ++ v.encode
  | .cons k v (.cons k' w rest) =>
      "\"" ++ k ++ "\":" ++ v.encode ++ "," ++ (JSFields.cons k' w rest).encode
end

/-- A string-literal body: chars up to the closing quote. Returns the
literal and the remaining input, or fails on an unterminated literal. -/
def parseStringBody : List Char → Except String (String × List Char)
  | [] => .error "Unterminated string in JSON"
  | c :: rest =>
    if c = '"' then .ok ("", rest)
    else do
      let (s, rem) ← parseStringBody rest
      .ok (String.singleton c ++ s, rem)

/-- Digits at the front of the input, as a numeral value. -/
def parseDigits : List Char → Nat → Nat × List Char
  | c :: rest, acc =>
    if c.isDigit then parseDigits rest (acc * 10 + (c.toNat - '0'.toNat))
    else (acc, c :: rest)
  | [], acc => (acc, [])

-- JSON.parse, fuel-indexed recursive descent over the grammar the
-- encoder produces (null, booleans, integers, strings, arrays, objects; no
-- whitespace, which the encoder never emits).  The fuel only bounds nesting
-- and element recursion; decode below supplies more than enough.
mutual
def parseVal : Nat → List Char → Except String (JSValue × List Char)
  | 0, _ => .error "Fuel exhausted"
  | _ + 1, [] => .error "Unexpected end of JSON input"
  | fuel + 1, c :: cs =>
    if c = 'n' then
      match cs with
      | 'u' :: 'l' :: 'l' :: rest => .ok (.vNull, rest)
      | _ => .error "Unexpected token"
    else if c = 't' then
      match cs with
      | 'r' :: 'u' :: 'e' :: rest => .ok (.vBool true, rest)
      | _ => .error "Unexpected token"
    else if c = 'f' then
      match cs with
      | 'a' :: 'l' :: 's' :: 'e' :: rest => .ok (.vBool false, rest)
      | _ => .error "Unexpected token"
    else if c = '"' then do
      let (s, rem) ← parseStringBody cs
      .ok (.vStr s, rem)
    else if c = '-' then
      match cs with
      | d :: rest =>
        if d.isDigit then
          let (n, rem) := parseDigits rest (d.toNat - '0'.toNat)
          .ok (.vNum (-(n : Int)), rem)
        else .error "Unexpected token"
      | [] => .error "Unexpected end of JSON input"
    else if c.isDigit then
      let (n, rem) := parseDigits cs (c.toNat - '0'.toNat)
      .ok (.vNum (n : Int), rem)
    else if c = '[' then
      match cs with
      | ']' :: rest => .ok (.vArr .nil, rest)
      | _ => do
        let (items, rem) ← parseArrItems fuel cs
        .ok (.vArr items, rem)
    else if c = lbrace then
      match cs with
      | c' :: rest =>
        if c' = rbrace then .ok (.vObj .nil, rest)
        else do
          let (fields, rem) ← parseObjFields fuel (c' :: rest)
          .ok (.vObj fields, rem)
      | [] => .error "Unexpected end of JSON input"
    else .error "Unexpected token"

def parseArrItems : Nat → List Char → Except String (JSArr × List Char)
  | 0, _ => .error "Fuel exhausted"
  | fuel + 1, cs => do
    let (v, rem) ← parseVal fuel cs
    match rem with
    | ']' :: rest => .ok (.cons v .nil, rest)
    | ',' :: rest => do
        let (items, rem') ← parseArrItems fuel rest
        .ok (.cons v items, rem')
    | _ => .error "Expected comma or closing bracket"

def parseObjFields : Nat → List Char → Except String (JSFields × List Char)
  | 0, _ => .error "Fuel exhausted"
  | fuel + 1, cs =>
    match cs with
    | '"' :: cs' => do
      let (k, rem) ← parseStringBody cs'
      match rem with
      | ':' :: rem' => do
        let (v, rem'') ← parseVal fuel rem'
        match rem'' with
        | c :: rest =>
          if c = rbrace then .ok (.cons k v .nil, rest)
          else if c = ',' then do
            let (fields, rem''') ← parseObjFields fuel rest
            .ok (.cons k v fields, rem''')
          else .error "Expected comma or closing brace"
        | [] => .error "Unexpected end of JSON input"
      | _ => .error "Expected colon"
    | _ => .error "Expected string key"

end

/-- `JSON.parse`: an `Except.error` models the thrown `SyntaxError`. -/
def decode (s : String) : Except String JSValue :=
  match parseVal (2 * s.length + 4) s.data with
  | .ok (v, []) => .ok v
  | .ok (_, _ :: _) => .error "Unexpected non-whitespace character after JSON"
  | .error e => .error e

/-- JavaScript truthiness of a string: every string except `""` is truthy
(`if (cached)` in the handlers). -/
def truthy (s : String) : Bool := !s.isEmpty

/-- The `if (cached)` test on the reply of `redis.get`: the hit payload
when the reply is a truthy string, `none` when the reply is nil (absent
key) or the falsy empty string. -/
def hitOf : Option String → Option String
  | some cached => if truthy cached then some cached else none
  | none => none

/-- Object-literal shorthand: `{ k: v }`. -/
def jsObj1 (k : String) (v : JSValue) : JSValue := .vObj (.cons k v .nil)

/-- Object-literal shorthand: `{ k1: v1, k2: v2 }`. -/
def jsObj2 (k1 : String) (v1 : JSValue) (k2 : String) (v2 : JSValue) : JSValue :=
  .vObj (.cons k1 v1 (.cons k2 v2 .nil))

/-- Object-literal shorthand: `{ k1: v1, k2: v2, k3: v3 }`. -/
def jsObj3 (k1 : String) (v1 : JSValue) (k2 : String) (v2 : JSValue)
    (k3 : String) (v3 : JSValue) : JSValue :=
  .vObj (.cons k1 v1 (.cons k2 v2 (.cons k3 v3 .nil)))

/-- The state behind one Redis client: key ↦ (payload, absolute expiry
deadline in seconds).  Every cache write in the source attaches an `EX`
TTL, so every live entry carries a deadline; an entry set at time `t`
with TTL `n` is alive while `now < t + n`. -/
abbrev CacheStore := List (String × String × Nat)

def CacheStore.lookup : CacheStore → String → Option (String × Nat)
  | [], _ => none
  | (k, v, d) :: rest, k' => if k = k' then some (v, d) else CacheStore.lookup rest k'

/-- `GET key` on a live connection: `none` models the Redis nil reply
(absent or expired key). -/
def CacheStore.getOk (st : CacheStore) (now : Nat) (k : String) : Option String :=
  match st.lookup k with
  | some (v, d) => if now < d then some v else none
  | none => none

/-- `SET key value EX ttl` on a live connection. -/
def CacheStore.setEx (st : CacheStore) (now : Nat) (k v : String) (ttl : Nat) : CacheStore :=
  (k, v, now + ttl) :: st.filter (fun e => !(e.1 == k))

/-- Failure injection for the `await`ed store calls of one request:
`some msg` makes the call throw an error whose `.message` is `msg`
(the store being unavailable). -/
structure Faults where
  getFail : Option String
  setFail : Option String

/-- No injected failures: the store is reachable. -/
def Faults.none' : Faults := ⟨none, none⟩

/-- `await redis.get(key)`: throws when the store is unavailable,
otherwise returns the payload or the nil reply. -/
def redisGet (f : Faults) (st : CacheStore) (now : Nat) (k : String) :
    Except String (Option String) :=
  match f.getFail with
  | some e => .error e
  | none => .ok (st.getOk now k)

/-- `await client.set(key, value, "EX", ttl)`: throws when the store is
unavailable (no write happens), otherwise returns the updated store. -/
def redisSetEx (f : Faults) (st : CacheStore) (now : Nat) (k v : String) (ttl : Nat) :
    Except String CacheStore :=
  match f.setFail with
  | some e => .error e
  | none => .ok (st.setEx now k v ttl)

structure HttpResponse where
  status : Nat
  body : JSValue

/-- Outcome of one products-handler request.  `result` is `.error e` when
the handler let an error escape unhandled (no response sent), `.ok r`
when it responded with `r`.  `writes` lists the cache writes the request
performed, as (key, payload, TTL-seconds). -/
structure HandlerResult where
  result : Except String HttpResponse
  store : CacheStore
  dbCalled : Bool
  writes : List (String × String × Nat)

/-- The JS value `product` after `await Product.findById(id)`: the
document, or `null` when nothing matched. -/
def jsOrNull (o : Option JSValue) : JSValue := o.getD .vNull

/-- Lines 64-77, `app.get("/products/:id")`: check cache, on a truthy
cached string respond with `JSON.parse(cached)`; otherwise query the DB,
cache `JSON.stringify(product)` with `EX 3600` and respond with the
product.  There is no try/catch: any thrown error escapes as an
unhandled rejection (`.error`).  `findById` is the outcome of
`Product.findById(id)` for this request. -/
def productsHandler1 (now : Nat) (store : CacheStore) (f : Faults)
    (findById : Except String (Option JSValue)) (id : String) : HandlerResult :=
  let cacheKey := "product:" ++ id
  match redisGet f store now cacheKey with
  | .error e => ⟨.error e, store, false, []⟩
  | .ok cachedOpt =>
    match hitOf cachedOpt with
    | some cached =>
      match decode cached with
      | .error e => ⟨.error e, store, false, []⟩
      | .ok v => ⟨.ok ⟨200, v⟩, store, false, []⟩
    | none =>
      match findById with
      | .error e => ⟨.error e, store, true, []⟩
      | .ok product =>
        let payload := (jsOrNull product).encode
        match redisSetEx f store now cacheKey payload 3600 with
        | .error e => ⟨.error e, store, true, []⟩
        | .ok store' => ⟨.ok ⟨200, jsOrNull product⟩, store', true, [(cacheKey, payload, 3600)]⟩

/-- Lines 157-179, `router.get("/:id")`: same cache-aside read but inside
try/catch — any thrown error is caught and answered as
`res.status(500).json({ error: err.message })` — with a 404 short-circuit
when the DB finds nothing (no cache write), `{source, data}` response
envelopes, and the write issued through the second ioredis client
`redisr`, which connects to the same server as `redis` (default
`REDIS_PORT`), hence one shared store here. -/
def productsHandler2 (now : Nat) (store : CacheStore) (f : Faults)
    (findById : Except String (Option JSValue)) (id : String) : HandlerResult :=
  let cacheKey := "product:" ++ id
  match redisGet f store now cacheKey with
  | .error e => ⟨.ok ⟨500, jsObj1 "error" (.vStr e)⟩, store, false, []⟩
  | .ok cachedOpt =>
    match hitOf cachedOpt with
    | some cached =>
      match decode cached with
      | .error e => ⟨.ok ⟨500, jsObj1 "error" (.vStr e)⟩, store, false, []⟩
      | .ok v => ⟨.ok ⟨200, jsObj2 "source" (.vStr "cache") "data" v⟩, store, false, []⟩
    | none =>
      match findById with
      | .error e => ⟨.ok ⟨500, jsObj1 "error" (.vStr e)⟩, store, true, []⟩
      | .ok none => ⟨.ok ⟨404, jsObj1 "message" (.vStr "Not found")⟩, store, true, []⟩
      | .ok (some product) =>
        match redisSetEx f store now cacheKey product.encode 3600 with
        | .error e => ⟨.ok ⟨500, jsObj1 "error" (.vStr e)⟩, store, true, []⟩
        | .ok store' =>
          ⟨.ok ⟨200, jsObj2 "source" (.vStr "db") "data" product⟩, store', true,
            [(cacheKey, product.encode, 3600)]⟩

/-- Lines 235-240: the fake DB call of the news endpoint. -/
def getFakeNewsFromDb : JSValue :=
  .vArr (.cons (jsObj3 "id" (.vNum 1) "title" (.vStr "News 1") "content" (.vStr "Lorem ipsum"))
    (.cons (jsObj3 "id" (.vNum 2) "title" (.vStr "News 2") "content" (.vStr "Dolor sit amet"))
      .nil))

/-- Outcome of one `/news` request.  Two stores appear because the
handler reads `news:all` through the ioredis client `redis` (local
server) but writes it through the Upstash REST client `redis2` (remote
server): they are distinct databases. -/
structure NewsResult where
  response : HttpResponse
  localStore : CacheStore
  upstashStore : CacheStore
  dbCalled : Bool
  writes : List (String × String × Nat)

/-- Lines 243-270, `app.get("/news")` inside try/catch: read
`redis.get("news:all")` (ioredis, local store); on a truthy cached string
respond `{success, source: "cache", data: cachedNews}` with the raw
string as `data`; on a miss call `getFakeNewsFromDb`, write via
`redis2.set(cacheKey, news, { ex: 600 })` (Upstash store, which
serializes the value), and respond with the news; any thrown error is
answered as `500 {success: false, message: "Server error"}`. -/
def newsHandler (now : Nat) (localStore upstashStore : CacheStore) (f : Faults) : NewsResult :=
  let cacheKey := "news:all"
  let serverError : HttpResponse :=
    ⟨500, jsObj2 "success" (.vBool false) "message" (.vStr "Server error")⟩
  match redisGet f localStore now cacheKey with
  | .error _ => ⟨serverError, localStore, upstashStore, false, []⟩
  | .ok cachedOpt =>
    match hitOf cachedOpt with
    | some cachedNews =>
      ⟨⟨200, jsObj3 "success" (.vBool true) "source" (.vStr "cache") "data" (.vStr cachedNews)⟩,
        localStore, upstashStore, false, []⟩
    | none =>
      let news := getFakeNewsFromDb
      match redisSetEx f upstashStore now cacheKey news.encode 600 with
      | .error _ => ⟨serverError, localStore, upstashStore, true, []⟩
      | .ok up' =>
        ⟨⟨200, jsObj3 "success" (.vBool true) "source" (.vStr "db") "data" news⟩,
          localStore, up', true, [(cacheKey, news.encode, 600)]⟩

/-- The rate counter at key `rate:<ip>` for one identity: `none` when the
key is absent, otherwise (counter value, optional expiry deadline in
absolute seconds). -/
structure RLState where
  entry : Option (Nat × Option Nat)

def RLState.empty : RLState := ⟨none⟩

/-- Passive expiry: a key whose deadline has passed is gone. -/
def rlNormalize (st : RLState) (now : Nat) : RLState :=
  match st.entry with
  | some (_, some d) => if now < d then st else ⟨none⟩
  | _ => st

/-- What one pass through the middleware did: the post-increment counter
`count` returned by `redis.incr`, whether `redis.expire` was invoked, and
the terminating response (`none` = `next()` was called, i.e. admitted). -/
structure RLCall where
  count : Nat
  expireCalled : Bool
  response : Option HttpResponse

def RLCall.admitted (c : RLCall) : Bool := c.response.isNone

/-- Lines 112-123, `rateLimiter`: `incr` the key (creating it at 1), on
`count === 1` set a 60-second expiry, reject with
`429 {error: "Too many requests"}` when `count > 10`, else `next()`. -/
def rateLimiter (st : RLState) (now : Nat) : RLCall × RLState :=
  let st0 := rlNormalize st now
  let count := (match st0.entry with | some (c, _) => c | none => 0) + 1
  let deadline0 := match st0.entry with | some (_, d) => d | none => none
  let expireCalled := decide (count = 1)
  let deadline1 := if count = 1 then some (now + 60) else deadline0
  let st1 : RLState := ⟨some (count, deadline1)⟩
  if count > 10 then
    (⟨count, expireCalled, some ⟨429, jsObj1 "error" (.vStr "Too many requests")⟩⟩, st1)
  else
    (⟨count, expireCalled, none⟩, st1)

/-- Run the middleware over a sequence of request arrival times. -/
def runRL : RLState → List Nat → List RLCall × RLState
  | st, [] => ([], st)
  | st, t :: ts =>
    let (call, st') := rateLimiter st t
    let (rest, fin) := runRL st' ts
    (call :: rest, fin)

/-- The rejection the middleware sends: `res.status(429).json({ error:
"Too many requests" })`. -/
def rlRejectResponse : HttpResponse := ⟨429, jsObj1 "error" (.vStr "Too many requests")⟩

/-- The call record produced by a pass whose post-increment counter is
`c`: expiry is set exactly when `c = 1`, the request is rejected exactly
when `c > 10`. -/
def expectedCall (c : Nat) : RLCall :=
  ⟨c, decide (c = 1), if 10 < c then some rlRejectResponse else none⟩

/-!
Lemmas and claim theorems.  `expectedCall c` (defined above) is the call
record the middleware produces when the post-increment counter is `c`;
the lemmas below show every in-window run from an empty counter produces
exactly those records.
-/


lemma rateLimiter_empty_state (now : Nat) :
    rateLimiter .empty now = (expectedCall 1, ⟨some (1, some (now + 60))⟩) := rfl

lemma rlNormalize_alive (k d now : Nat) (hnow : now < d) :
    rlNormalize ⟨some (k, some d)⟩ now = ⟨some (k, some d)⟩ := by
  simp [rlNormalize, hnow]

lemma rlNormalize_dead (k d now : Nat) (hnow : d ≤ now) :
    rlNormalize ⟨some (k, some d)⟩ now = ⟨none⟩ := by
  simp [rlNormalize, Nat.not_lt.2 hnow]

lemma rlNormalize_idem (st : RLState) (now : Nat) :
    rlNormalize (rlNormalize st now) now = rlNormalize st now := by
  cases hst : st.entry with
  | none => simp [rlNormalize, hst]
  | some e =>
    obtain ⟨c, d⟩ := e
    cases d with
    | none => simp [rlNormalize, hst]
    | some dd => by_cases h : now < dd <;> simp [rlNormalize, hst, h]

lemma rateLimiter_normalized (st : RLState) (now : Nat) :
    rateLimiter st now = rateLimiter (rlNormalize st now) now := by
  unfold rateLimiter
  rw [rlNormalize_idem]

lemma rateLimiter_alive (k d now : Nat) (hk : 1 ≤ k) (hnow : now < d) :
    rateLimiter ⟨some (k, some d)⟩ now = (expectedCall (k + 1), ⟨some (k + 1, some d)⟩) := by
  have hk1 : ¬ (k + 1 = 1) := by omega
  unfold rateLimiter
  rw [rlNormalize_alive k d now hnow]
  by_cases h10 : 10 < k + 1 <;> simp [h10, hk1, expectedCall, rlRejectResponse]

lemma rateLimiter_dead (k d now : Nat) (hnow : d ≤ now) :
    rateLimiter ⟨some (k, some d)⟩ now = (expectedCall 1, ⟨some (1, some (now + 60))⟩) := by
  rw [rateLimiter_normalized, rlNormalize_dead k d now hnow]
  rfl

lemma runRL_window (d : Nat) (ts : List Nat) : ∀ (k : Nat), 1 ≤ k →
    (∀ t ∈ ts, t < d) →
    runRL ⟨some (k, some d)⟩ ts =
      ((List.range ts.length).map (fun i => expectedCall (k + i + 1)),
        ⟨some (k + ts.length, some d)⟩) := by
  induction ts with
  | nil => intro k hk _; simp [runRL]
  | cons t ts ih =>
    intro k hk hts
    have h1 := rateLimiter_alive k d t hk (hts t (List.mem_cons_self _ _))
    have h2 := ih (k + 1) (by omega) (fun u hu => hts u (List.mem_cons_of_mem _ hu))
    have hn : k + 1 + ts.length = k + (ts.length + 1) := by omega
    rw [hn] at h2
    have hlist : List.map (fun i => expectedCall (k + i + 1)) (List.range (ts.length + 1)) =
        expectedCall (k + 1) ::
          List.map (fun i => expectedCall (k + 1 + i + 1)) (List.range ts.length) := by
      rw [List.range_succ_eq_map, List.map_cons, List.map_map]
      congr 1
      refine List.map_congr_left fun a _ => ?_
      simp only [Function.comp_apply]
      congr 1
      omega
    simp only [runRL, h1, h2, List.length_cons, hlist]

lemma runRL_from_empty (t₀ : Nat) (ts : List Nat) (hts : ∀ t ∈ ts, t < t₀ + 60) :
    runRL .empty (t₀ :: ts) =
      ((List.range (ts.length + 1)).map (fun i => expectedCall (i + 1)),
        ⟨some (ts.length + 1, some (t₀ + 60))⟩) := by
  have h2 := runRL_window (t₀ + 60) ts 1 (by omega) hts
  have hn : 1 + ts.length = ts.length + 1 := by omega
  rw [hn] at h2
  have hlist : List.map (fun i => expectedCall (i + 1)) (List.range (ts.length + 1)) =
      expectedCall 1 ::
        List.map (fun i => expectedCall (1 + i + 1)) (List.range ts.length) := by
    rw [List.range_succ_eq_map, List.map_cons, List.map_map]
    congr 1
    refine List.map_congr_left fun a _ => ?_
    simp only [Function.comp_apply]
    congr 1
    omega
  simp only [runRL, rateLimiter_empty_state, h2, List.length_cons, hlist]

lemma expectedCall_admitted (c : Nat) : (expectedCall c).admitted = decide (c ≤ 10) := by
  rcases Nat.lt_or_ge 10 c with h | h
  · simp [expectedCall, RLCall.admitted, h, Nat.not_le.2 h]
  · simp [expectedCall, RLCall.admitted, Nat.not_lt.2 h, h]

lemma expectedCall_count (c : Nat) : (expectedCall c).count = c := rfl

lemma expectedCall_expireCalled (c : Nat) :
    (expectedCall c).expireCalled = decide (c = 1) := rfl

lemma map_expireCalled_tail (n : Nat) :
    (List.range n).map (fun i => (expectedCall (i + 2)).expireCalled) =
      List.replicate n false := by
  induction n with
  | zero => rfl
  | succ m ih =>
    rw [List.range_succ, List.map_append, ih, List.replicate_succ']
    congr 1

lemma map_expireCalled_all (n : Nat) :
    (List.range (n + 1)).map (fun i => (expectedCall (i + 1)).expireCalled) =
      true :: List.replicate n false := by
  rw [List.range_succ_eq_map, List.map_cons, List.map_map]
  congr 1
  exact map_expireCalled_tail n

/-- Claim C1: for identity `ip`, window 60 s and limit 10, any sequence of
calls whose later arrivals stay inside the window opened by the first call
admits exactly the first 10 and rejects the 11th and every later one; a
call after the window's deadline finds the counter expired, so the count
restarts from zero (post-increment 1) and the call is admitted. -/
theorem window_admits_first_ten_then_resets (t₀ : Nat) (ts : List Nat)
    (hts : ∀ t ∈ ts, t < t₀ + 60) (t' : Nat) (ht' : t₀ + 60 ≤ t') :
    ((runRL .empty (t₀ :: ts)).1.map (·.admitted) =
      (List.range (ts.length + 1)).map (fun i => decide (i + 1 ≤ 10))) ∧
    (rateLimiter (runRL .empty (t₀ :: ts)).2 t').1.count = 1 ∧
    (rateLimiter (runRL .empty (t₀ :: ts)).2 t').1.admitted = true := by
  rw [runRL_from_empty t₀ ts hts]
  have hdead := rateLimiter_dead (ts.length + 1) (t₀ + 60) t' ht'
  refine ⟨?_, ?_, ?_⟩
  · rw [List.map_map]
    refine List.map_congr_left fun a _ => ?_
    simp only [Function.comp_apply, expectedCall_admitted]
  · rw [hdead]
    rfl
  · rw [hdead]
    rfl

/-- Witness for C1: 11 rapid calls at t = 0 — calls 1-10 admitted, call 11
rejected — and a 12th call at t = 60 admitted with a fresh counter. -/
theorem window_admits_first_ten_then_resets_witness :
    ((runRL .empty (0 :: List.replicate 10 0)).1.map (·.admitted) =
      (List.range 11).map (fun i => decide (i + 1 ≤ 10))) ∧
    (rateLimiter (runRL .empty (0 :: List.replicate 10 0)).2 60).1.count = 1 ∧
    (rateLimiter (runRL .empty (0 :: List.replicate 10 0)).2 60).1.admitted = true :=
  window_admits_first_ten_then_resets 0 (List.replicate 10 0)
    (by intro t ht; rw [List.eq_of_mem_replicate ht]; omega) 60 (by omega)

/-- Claim C6: the counter's expiry is set exactly once per window — by the
increment that creates the counter (trace head) — and an increment on an
existing live counter neither calls `expire` nor changes the stored
deadline, which stays at `t₀ + 60` through the whole window. -/
theorem expiry_set_once_per_window (st : RLState) (now c : Nat) (d : Option Nat)
    (halive : (rlNormalize st now).entry = some (c, d)) (hc : 1 ≤ c)
    (t₀ : Nat) (ts : List Nat) (hts : ∀ t ∈ ts, t < t₀ + 60) :
    ((rateLimiter st now).1.expireCalled = false ∧
      (rateLimiter st now).2.entry = some (c + 1, d)) ∧
    ((runRL .empty (t₀ :: ts)).1.map (·.expireCalled) =
      true :: List.replicate ts.length false) ∧
    (runRL .empty (t₀ :: ts)).2.entry = some (ts.length + 1, some (t₀ + 60)) := by
  have hst : rlNormalize st now = ⟨some (c, d)⟩ := by
    cases h : rlNormalize st now with
    | mk e => rw [h] at halive; exact congrArg RLState.mk halive
  have hidem := rlNormalize_idem st now
  rw [hst] at hidem
  have hc1 : ¬ (c + 1 = 1) := by omega
  refine ⟨?_, ?_, ?_⟩
  · rw [rateLimiter_normalized st now, hst]
    unfold rateLimiter
    rw [hidem]
    by_cases h10 : 10 < c + 1 <;> simp [h10, hc1]
  · rw [runRL_from_empty t₀ ts hts, List.map_map]
    exact map_expireCalled_all ts.length
  · rw [runRL_from_empty t₀ ts hts]

/-- Witness for C6: a live counter at 3 is incremented without touching its
deadline, and a 3-call window sets expiry only on the first call. -/
theorem expiry_set_once_per_window_witness :
    ((rateLimiter ⟨some (3, some 50)⟩ 5).1.expireCalled = false ∧
      (rateLimiter ⟨some (3, some 50)⟩ 5).2.entry = some (4, some 50)) ∧
    ((runRL .empty (0 :: [1, 2])).1.map (·.expireCalled) =
      true :: List.replicate 2 false) ∧
    (runRL .empty (0 :: [1, 2])).2.entry = some (3, some (0 + 60)) :=
  expiry_set_once_per_window ⟨some (3, some 50)⟩ 5 3 (some 50) rfl (by omega) 0 [1, 2]
    (by intro t ht; simp at ht; omega)

/-- Claim C10: every pass increments the counter before deciding, rejected
calls included: within one window the observed counts are exactly
1, 2, ..., n (strictly increasing, growing past 10 without bound, final
counter value n), and every call from the 11th on is rejected, so a
rejected identity stays rejected until the key expires. -/
theorem counter_increments_every_call (t₀ : Nat) (ts : List Nat)
    (hts : ∀ t ∈ ts, t < t₀ + 60) :
    ((runRL .empty (t₀ :: ts)).1.map (·.count) = List.range' 1 (ts.length + 1)) ∧
    ((runRL .empty (t₀ :: ts)).2.entry = some (ts.length + 1, some (t₀ + 60))) ∧
    (∀ i c, ((runRL .empty (t₀ :: ts)).1)[i]? = some c → 10 ≤ i →
      c.admitted = false) := by
  rw [runRL_from_empty t₀ ts hts]
  refine ⟨?_, rfl, ?_⟩
  · rw [List.map_map, List.range'_eq_map_range]
    refine List.map_congr_left fun a _ => ?_
    simp only [Function.comp_apply, expectedCall_count]
    omega
  · intro i c h hi
    by_cases hlt : i < ts.length + 1
    · rw [List.getElem?_map, List.getElem?_range hlt] at h
      simp only [Option.map_some'] at h
      cases h
      rw [expectedCall_admitted]
      exact decide_eq_false (by omega)
    · have hlen :
          ((List.range (ts.length + 1)).map fun i => expectedCall (i + 1)).length ≤ i := by
        simpa using Nat.le_of_not_lt hlt
      rw [List.getElem?_eq_none hlen] at h
      cases h

/-- Witness for C10: 12 rapid calls — counts are 1..12 and the call with
post-increment count 12 is rejected. -/
theorem counter_increments_every_call_witness :
    ((runRL .empty (0 :: List.replicate 11 0)).1.map (·.count) = List.range' 1 12) ∧
    ((runRL .empty (0 :: List.replicate 11 0)).2.entry = some (12, some (0 + 60))) ∧
    (expectedCall 12).admitted = false := by
  have h := counter_increments_every_call 0 (List.replicate 11 0)
    (by intro t ht; rw [List.eq_of_mem_replicate ht]; omega)
  exact ⟨h.1, h.2.1, h.2.2 11 (expectedCall 12) rfl (by omega)⟩

/-- Counterexample for C7: the 11th rapid call is rejected with
`429 {error: "Too many requests"}` whose body has no `retryAfterSeconds`
field — the middleware never queries the key's TTL. -/
theorem rejection_no_retryAfter_cex :
    ((runRL .empty (List.replicate 11 0)).1.getD 10 ⟨0, false, none⟩).response =
      some ⟨429, jsObj1 "error" (.vStr "Too many requests")⟩ ∧
    (((runRL .empty (List.replicate 11 0)).1.getD 10 ⟨0, false, none⟩).response.map
      (fun r => r.body.lookup "retryAfterSeconds")) = some none := ⟨rfl, rfl⟩

/-- Claim C7 as amended: whenever the middleware rejects, the response is
exactly `429 {error: "Too many requests"}`; it carries no
`retryAfterSeconds` value (the key's time-to-live is never consulted). -/
theorem rejection_carries_no_retryAfter (st : RLState) (now : Nat) (r : HttpResponse)
    (h : (rateLimiter st now).1.response = some r) :
    r.status = 429 ∧ r.body = jsObj1 "error" (.vStr "Too many requests") ∧
      r.body.lookup "retryAfterSeconds" = none := by
  simp only [rateLimiter] at h
  rcases hn : (rlNormalize st now).entry with _ | ⟨c, dopt⟩ <;> rw [hn] at h
  · simp at h
  · by_cases h10 : c + 1 > 10
    · rw [if_pos h10] at h
      simp only [Option.some.injEq] at h
      subst h
      exact ⟨rfl, rfl, rfl⟩
    · rw [if_neg h10] at h
      simp at h

/-- Witness for C7 (amended): instantiated at a counter standing at 10, so
the next call is rejected. -/
theorem rejection_carries_no_retryAfter_witness :
    rlRejectResponse.status = 429 ∧
    rlRejectResponse.body = jsObj1 "error" (.vStr "Too many requests") ∧
    rlRejectResponse.body.lookup "retryAfterSeconds" = none :=
  rejection_carries_no_retryAfter ⟨some (10, some 60)⟩ 0 rlRejectResponse rfl


lemma encode_vNull : JSValue.vNull.encode = "null" := rfl

lemma decode_null : decode "null" = .ok .vNull := rfl

lemma decode_garbage : decode "garbage" = .error "Unexpected token" := rfl

lemma truthy_null : truthy "null" = true := rfl

/-- Claim C8: every cache write any of the three handlers performs carries
a positive TTL (3600 s in both product handlers, 600 s in the news
handler); no code path stores a cache entry without an expiry. -/
theorem cache_writes_have_positive_ttl (now : Nat) (store ls us : CacheStore) (f : Faults)
    (findById : Except String (Option JSValue)) (id : String) :
    (∀ w ∈ (productsHandler1 now store f findById id).writes, 0 < w.2.2) ∧
    (∀ w ∈ (productsHandler2 now store f findById id).writes, 0 < w.2.2) ∧
    (∀ w ∈ (newsHandler now ls us f).writes, 0 < w.2.2) := by
  refine ⟨?_, ?_, ?_⟩
  · intro w hw
    simp only [productsHandler1] at hw
    repeat' split at hw
    all_goals simp_all
  · intro w hw
    simp only [productsHandler2] at hw
    repeat' split at hw
    all_goals simp_all
  · intro w hw
    simp only [newsHandler] at hw
    repeat' split at hw
    all_goals simp_all

/-- Witness for C8: the write performed by the first products handler on a
miss carries TTL 3600 > 0. -/
theorem cache_writes_have_positive_ttl_witness :
    ("product:7", "null", 3600) ∈
      (productsHandler1 0 [] ⟨none, none⟩ (.ok none) "7").writes ∧
    0 < (("product:7", "null", 3600) : String × String × Nat).2.2 :=
  ⟨by decide, (cache_writes_have_positive_ttl 0 [] [] [] ⟨none, none⟩ (.ok none) "7").1
    ("product:7", "null", 3600) (by decide)⟩

/-- Claim C4: when `Product.findById` fails on a cache miss, the failure is
observable by the caller — the try/catch handler answers
`500 {error: err.message}`, the bare handler lets the error escape — and
no cache write happens: the store is returned unchanged. -/
theorem computeFail_propagates_no_write (now : Nat) (store : CacheStore) (f : Faults)
    (msg id : String) (hget : f.getFail = none)
    (hmiss : store.getOk now ("product:" ++ id) = none) :
    productsHandler1 now store f (.error msg) id = ⟨.error msg, store, true, []⟩ ∧
    productsHandler2 now store f (.error msg) id =
      ⟨.ok ⟨500, jsObj1 "error" (.vStr msg)⟩, store, true, []⟩ := by
  constructor <;> simp [productsHandler1, productsHandler2, redisGet, hget, hmiss, hitOf]

/-- Witness for C4: a failing DB call against an empty cache. -/
theorem computeFail_propagates_no_write_witness :
    (productsHandler1 0 [] ⟨none, none⟩ (.error "db down") "7" =
      ⟨.error "db down", [], true, []⟩) ∧
    (productsHandler2 0 [] ⟨none, none⟩ (.error "db down") "7" =
      ⟨.ok ⟨500, jsObj1 "error" (.vStr "db down")⟩, [], true, []⟩) :=
  computeFail_propagates_no_write 0 [] ⟨none, none⟩ "db down" "7" rfl rfl

/-- Counterexample for C3: with the store unavailable on `get`, the
try/catch products handler answers `500 {error: "connection refused"}`
and never invokes the DB (`dbCalled = false`) — the read failure is
surfaced as an error, not treated as a miss. -/
theorem read_failure_surfaced_cex :
    productsHandler2 0 [] ⟨some "connection refused", none⟩
        (.ok (some (jsObj1 "name" (.vStr "Widget")))) "7" =
      ⟨.ok ⟨500, jsObj1 "error" (.vStr "connection refused")⟩, [], false, []⟩ := rfl

/-- Claim C3 as amended: a failure on the cache read path — the store
unavailable during `get`, or a cached payload `JSON.parse` rejects — is
not treated as a miss: the compute function is never invoked, the
try/catch handler surfaces the error as a 500 response with its message,
and the handler without try/catch lets the error escape unhandled. -/
theorem read_failure_surfaced (now : Nat) (store : CacheStore) (msg id : String)
    (findById : Except String (Option JSValue)) (s e : String)
    (hcached : store.getOk now ("product:" ++ id) = some s) (htruthy : truthy s = true)
    (hdec : decode s = .error e) :
    (productsHandler2 now store ⟨some msg, none⟩ findById id =
      ⟨.ok ⟨500, jsObj1 "error" (.vStr msg)⟩, store, false, []⟩) ∧
    (productsHandler1 now store ⟨some msg, none⟩ findById id =
      ⟨.error msg, store, false, []⟩) ∧
    (productsHandler2 now store ⟨none, none⟩ findById id =
      ⟨.ok ⟨500, jsObj1 "error" (.vStr e)⟩, store, false, []⟩) ∧
    (productsHandler1 now store ⟨none, none⟩ findById id =
      ⟨.error e, store, false, []⟩) := by
  refine ⟨?_, ?_, ?_, ?_⟩ <;>
    simp [productsHandler1, productsHandler2, redisGet, hitOf, hcached, htruthy, hdec]

/-- Witness for C3 (amended): a store outage, and an undecodable cached
payload `"garbage"` stored under the product key. -/
theorem read_failure_surfaced_witness :
    (productsHandler2 0 [("product:7", "garbage", 100)] ⟨some "down", none⟩ (.ok none) "7" =
      ⟨.ok ⟨500, jsObj1 "error" (.vStr "down")⟩, [("product:7", "garbage", 100)], false, []⟩) ∧
    (productsHandler1 0 [("product:7", "garbage", 100)] ⟨some "down", none⟩ (.ok none) "7" =
      ⟨.error "down", [("product:7", "garbage", 100)], false, []⟩) ∧
    (productsHandler2 0 [("product:7", "garbage", 100)] ⟨none, none⟩ (.ok none) "7" =
      ⟨.ok ⟨500, jsObj1 "error" (.vStr "Unexpected token")⟩,
        [("product:7", "garbage", 100)], false, []⟩) ∧
    (productsHandler1 0 [("product:7", "garbage", 100)] ⟨none, none⟩ (.ok none) "7" =
      ⟨.error "Unexpected token", [("product:7", "garbage", 100)], false, []⟩) :=
  read_failure_surfaced 0 [("product:7", "garbage", 100)] "down" "7" (.ok none)
    "garbage" "Unexpected token" rfl rfl rfl

/-- Counterexample for C5: when the cache-population write fails after the
DB returned a product, the try/catch handler answers
`500 {error: "write failed"}` — the computed value is not returned and
the overall operation fails. -/
theorem write_failure_fails_request_cex :
    productsHandler2 0 [] ⟨none, some "write failed"⟩
        (.ok (some (jsObj1 "name" (.vStr "Widget")))) "7" =
      ⟨.ok ⟨500, jsObj1 "error" (.vStr "write failed")⟩, [], true, []⟩ := rfl

/-- Claim C5 as amended: if the cache write fails after a successful
compute, the computed value is not returned: the try/catch handler
responds 500 with the store error's message and the handler without
try/catch lets the error escape; the store is left unchanged. -/
theorem write_failure_fails_request (now : Nat) (store : CacheStore) (msg id : String)
    (p : JSValue) (hmiss : store.getOk now ("product:" ++ id) = none) :
    (productsHandler2 now store ⟨none, some msg⟩ (.ok (some p)) id =
      ⟨.ok ⟨500, jsObj1 "error" (.vStr msg)⟩, store, true, []⟩) ∧
    (productsHandler1 now store ⟨none, some msg⟩ (.ok (some p)) id =
      ⟨.error msg, store, true, []⟩) := by
  constructor <;>
    simp [productsHandler1, productsHandler2, redisGet, redisSetEx, hitOf, hmiss]

/-- Witness for C5 (amended): a failing `set` after a successful DB read. -/
theorem write_failure_fails_request_witness :
    (productsHandler2 0 [] ⟨none, some "boom"⟩ (.ok (some (jsObj1 "name" (.vStr "W")))) "7" =
      ⟨.ok ⟨500, jsObj1 "error" (.vStr "boom")⟩, [], true, []⟩) ∧
    (productsHandler1 0 [] ⟨none, some "boom"⟩ (.ok (some (jsObj1 "name" (.vStr "W")))) "7" =
      ⟨.error "boom", [], true, []⟩) :=
  write_failure_fails_request 0 [] "boom" "7" (jsObj1 "name" (.vStr "W")) rfl

/-- Claim C2 at its failing input: two consecutive `/news` requests with
both stores empty and the store reachable.  The first succeeds (status
200), computes the news and caches it — but through the Upstash client
`redis2`, while the handler reads `news:all` through the ioredis client
`redis`.  The second request therefore misses and invokes
`getFakeNewsFromDb` again (`dbCalled = true`, `source = "db"`), violating
the cache-hit property. -/
theorem news_cache_never_hits :
    (newsHandler 0 [] [] Faults.none').dbCalled = true ∧
    (newsHandler 0 [] [] Faults.none').response.status = 200 ∧
    (newsHandler 0 [] [] Faults.none').upstashStore.lookup "news:all" =
      some (getFakeNewsFromDb.encode, 600) ∧
    (newsHandler 1 (newsHandler 0 [] [] Faults.none').localStore
        (newsHandler 0 [] [] Faults.none').upstashStore Faults.none').dbCalled = true ∧
    (newsHandler 1 (newsHandler 0 [] [] Faults.none').localStore
        (newsHandler 0 [] [] Faults.none').upstashStore
        Faults.none').response.body.lookup "source" = some (.vStr "db") :=
  ⟨rfl, rfl, rfl, rfl, rfl⟩

/-- Claim C9: on a miss where the DB returns null, the first products
handler stores the encoded null (`"null"`) under the product key with TTL
3600 and responds with null; any request for the same id within the next
hour — whatever the DB would do then — is served the cached null without
touching the database.  The second products handler instead answers
`404 {message: "Not found"}` and writes nothing. -/
theorem null_product_cached_one_hour (now now' : Nat) (store : CacheStore) (id : String)
    (findById' : Except String (Option JSValue))
    (hmiss : store.getOk now ("product:" ++ id) = none) (hfresh : now' < now + 3600) :
    (productsHandler1 now store ⟨none, none⟩ (.ok none) id =
      ⟨.ok ⟨200, .vNull⟩, store.setEx now ("product:" ++ id) "null" 3600, true,
        [("product:" ++ id, "null", 3600)]⟩) ∧
    (productsHandler1 now' (store.setEx now ("product:" ++ id) "null" 3600) ⟨none, none⟩
        findById' id =
      ⟨.ok ⟨200, .vNull⟩, store.setEx now ("product:" ++ id) "null" 3600, false, []⟩) ∧
    (productsHandler2 now store ⟨none, none⟩ (.ok none) id =
      ⟨.ok ⟨404, jsObj1 "message" (.vStr "Not found")⟩, store, true, []⟩) := by
  refine ⟨?_, ?_, ?_⟩
  · simp [productsHandler1, redisGet, redisSetEx, hitOf, hmiss, jsOrNull, encode_vNull]
  · simp [productsHandler1, redisGet, CacheStore.setEx, CacheStore.getOk, CacheStore.lookup,
      hitOf, hfresh, truthy_null, decode_null]
  · simp [productsHandler2, redisGet, hitOf, hmiss]

/-- Witness for C9: id 7, empty cache, DB null at t = 0; at t = 5 the
cached null is served even though the DB would fail. -/
theorem null_product_cached_one_hour_witness :
    (productsHandler1 0 [] ⟨none, none⟩ (.ok none) "7" =
      ⟨.ok ⟨200, .vNull⟩, CacheStore.setEx [] 0 "product:7" "null" 3600, true,
        [("product:7", "null", 3600)]⟩) ∧
    (productsHandler1 5 (CacheStore.setEx [] 0 "product:7" "null" 3600) ⟨none, none⟩
        (.error "db down") "7" =
      ⟨.ok ⟨200, .vNull⟩, CacheStore.setEx [] 0 "product:7" "null" 3600, false, []⟩) ∧
    (productsHandler2 0 [] ⟨none, none⟩ (.ok none) "7" =
      ⟨.ok ⟨404, jsObj1 "message" (.vStr "Not found")⟩, [], true, []⟩) :=
  null_product_cached_one_hour 0 5 [] "7" (.error "db down") rfl (by omega)

end RedisCaching
